import Mathlib

/-!
# Verification of the gb-emu core against its specification

Shallow embedding of the parts of the `gb-emu` Game Boy emulator that the
frozen claims are about:

* the opcode bit-field decomposition macros (`CPU/instruction.h`),
* the memory-mapped I/O dispatch (`src/io.c`),
* the cartridge header-checksum gate of `load_cartridge` (`cartridge/cartridge.c`),
* the LCD register file with `read_lcd` / `write_lcd` (`src/ppu/lcd.c`,
  `include/ppu/lcd.h`),
* the CLI positional-argument handling (`options.c`),
* the main fetch-execute / interrupt loop (`main.c`).

Machine bytes are `Nat` with explicit `% 256` where the C code's `u8` type
truncates.  Fallible operations (C assertions) return `Option`; logging calls
are modelled as explicit event lists so that "logs a diagnostic" becomes a
provable statement.  Helpers that live in headers absent from the provided
sources (`utils/macro.h`, `CPU/timer.h`, ...) are modelled from the
specification and carry a doc comment saying so.
-/

namespace GbEmu

/-! ## Opcode bit-field decomposition (CPU/instruction.h)

The header defines the x/y/z/p/q extraction macros twice, switching on the
host's `__BYTE_ORDER`.  Both branches are embedded verbatim; the opcode is a
byte (`Nat`, callers pass values `< 256`). -/

/-- `OPCODE_X` in the `__BIG_ENDIAN` branch: `(_opcode) >> 6`. -/
def OPCODE_X_BE (opcode : Nat) : Nat := opcode >>> 6

/-- `OPCODE_Y` in the `__BIG_ENDIAN` branch: `((_opcode) >> 3) & 0x07`. -/
def OPCODE_Y_BE (opcode : Nat) : Nat := (opcode >>> 3) &&& 0x07

/-- `OPCODE_Z` in the `__BIG_ENDIAN` branch: `(_opcode) & 0x07`. -/
def OPCODE_Z_BE (opcode : Nat) : Nat := opcode &&& 0x07

/-- `OPCODE_Q` in the `__BIG_ENDIAN` branch: `((_opcode) >> 3) & 0x01`. -/
def OPCODE_Q_BE (opcode : Nat) : Nat := (opcode >>> 3) &&& 0x01

/-- `OPCODE_P` in the `__BIG_ENDIAN` branch: `((_opcode) >> 4) & 0x03`. -/
def OPCODE_P_BE (opcode : Nat) : Nat := (opcode >>> 4) &&& 0x03

/-- `OPCODE_X` in the little-endian branch: `(_opcode) & 0x03`. -/
def OPCODE_X_LE (opcode : Nat) : Nat := opcode &&& 0x03

/-- `OPCODE_Y` in the little-endian branch: `((_opcode) >> 2) & 0x07`. -/
def OPCODE_Y_LE (opcode : Nat) : Nat := (opcode >>> 2) &&& 0x07

/-- `OPCODE_Z` in the little-endian branch: `(_opcode) >> 5`. -/
def OPCODE_Z_LE (opcode : Nat) : Nat := opcode >>> 5

/-- `OPCODE_Q` in the little-endian branch: `((_opcode) >> 4) & 0x01`. -/
def OPCODE_Q_LE (opcode : Nat) : Nat := (opcode >>> 4) &&& 0x01

/-- `OPCODE_P` in the little-endian branch: `((_opcode) >> 2) & 0x03`. -/
def OPCODE_P_LE (opcode : Nat) : Nat := (opcode >>> 2) &&& 0x03

/-! ## Memory-mapped I/O dispatch (src/io.c) -/

/-- Modelled from the spec: `IN_RANGE` from `utils/macro.h` (not under
`src/`), an inclusive address-range test, consistent with the spec's
contiguous register windows. -/
def IN_RANGE (x low high : Nat) : Bool := decide (low ≤ x ∧ x ≤ high)

/-- Modelled from the spec: the timer divider register address (`TIMER_DIV`
from `CPU/timer.h`, not under `src/`); the console's fixed I/O address of the
free-running divider, first register of the timer window. -/
def TIMER_DIV : Nat := 0xFF04

/-- Modelled from the spec: the timer control register address (`TIMER_TAC`
from `CPU/timer.h`, not under `src/`); last register of the timer window
DIV, TIMA, TMA, TAC. -/
def TIMER_TAC : Nat := 0xFF07

/-- Modelled from the spec: the interrupt-flag (pending) register address
(`IF_ADDRESS` from `CPU/interrupt.h`, not under `src/`). -/
def IF_ADDRESS : Nat := 0xFF0F

/-- Timer register block owned by the timer component. -/
structure TimerRegs where
  div : Nat
  tima : Nat
  tma : Nat
  tac : Nat
  deriving DecidableEq

/-- State reachable through the I/O dispatcher: the timer registers and the
interrupt-flag byte. -/
structure IoState where
  timer : TimerRegs
  interruptFlag : Nat
  deriving DecidableEq

/-- Modelled from the spec: `write_timer` (`CPU/timer.c`, not under `src/`).
Writes to the divider reset it to 0 regardless of the value written; the
other timer registers store the byte. -/
def write_timer (t : TimerRegs) (address data : Nat) : TimerRegs :=
  if address = TIMER_DIV then { t with div := 0 }
  else if address = TIMER_DIV + 1 then { t with tima := data % 256 }
  else if address = TIMER_DIV + 2 then { t with tma := data % 256 }
  else { t with tac := data % 256 }

/-- Modelled from the spec: `read_timer` (`CPU/timer.c`, not under `src/`);
returns the addressed timer register. -/
def read_timer (t : TimerRegs) (address : Nat) : Nat :=
  if address = TIMER_DIV then t.div
  else if address = TIMER_DIV + 1 then t.tima
  else if address = TIMER_DIV + 2 then t.tma
  else t.tac

/-- Modelled from the spec: `write_interrupt` (`CPU/interrupt.c`, not under
`src/`); stores the written byte into the pending-flag register. -/
def write_interrupt (data : Nat) : Nat := data % 256

/-- Modelled from the spec: `read_interrupt` (`CPU/interrupt.c`, not under
`src/`); returns the pending-flag register. -/
def read_interrupt (flag : Nat) : Nat := flag

/-- A `log_err` diagnostic emitted by the I/O dispatcher, carrying the
offending address (the format string in `io.c` is `"IO write: " HEX` for both
directions). -/
inductive IoLog where
  | ioErr (address : Nat)
  deriving DecidableEq

/-- `write_io` from `src/io.c`: timer window and interrupt-flag register are
forwarded to their owners; any other address only logs a diagnostic. -/
def io_write (s : IoState) (address data : Nat) : IoState × List IoLog :=
  if IN_RANGE address TIMER_DIV TIMER_TAC then
    ({ s with timer := write_timer s.timer address data }, [])
  else if address = IF_ADDRESS then
    ({ s with interruptFlag := write_interrupt data }, [])
  else
    (s, [IoLog.ioErr address])

/-- `read_io` from `src/io.c`: timer window and interrupt-flag register are
forwarded to their owners; any other address logs a diagnostic and returns 0. -/
def io_read (s : IoState) (address : Nat) : Nat × List IoLog :=
  if IN_RANGE address TIMER_DIV TIMER_TAC then
    (read_timer s.timer address, [])
  else if address = IF_ADDRESS then
    (read_interrupt s.interruptFlag, [])
  else
    (0, [IoLog.ioErr address])

/-- A concrete I/O state used by closed evaluations. -/
def ioState0 : IoState := ⟨⟨0, 0, 0, 0⟩, 0⟩

/-! ## Cartridge header checksum (cartridge/cartridge.c) -/

/-- One iteration of the checksum loop `sum -= cart.rom[i++] - 1` in
`unsigned char` arithmetic: `sum` becomes `sum - rom[i] + 1 (mod 256)`. -/
def checksum_step (sum b : Nat) : Nat := (sum + (256 - b % 256) + 1) % 256

/-- `verify_header_checksum` from `cartridge.c`: folds `checksum_step` over
the 25 header bytes `0x0134 .. 0x014C` and returns whether the final sum is
zero.  The ROM is a byte map. -/
def verify_header_checksum (rom : Nat → Nat) : Bool :=
  ((List.range 25).foldl (fun sum k => checksum_step sum (rom (0x0134 + k))) 0) == 0

/-- User-visible reports emitted by `load_cartridge`. -/
inductive CartLog where
  | perrorOpen
  | invalidChecksum
  deriving DecidableEq

/-- The checksum gate of `load_cartridge` (`cartridge.c`), entered once the
ROM file has been read into memory: `if (verify_header_checksum(cartridge))
{ fputs("...Invalid checksum.", stderr); return false; }` and otherwise the
function runs to its final `return true`.  Result is `(returned value,
reports)`. -/
def load_cartridge_from_rom (rom : Nat → Nat) : Bool × List CartLog :=
  if verify_header_checksum rom then (false, [CartLog.invalidChecksum])
  else (true, [])

/-- `load_cartridge` (`cartridge.c`) with the file-open outcome abstracted as
a boolean: `fopen` failure reports through `perror` and returns false, else
the checksum gate decides. -/
def load_cartridge_model (openOk : Bool) (rom : Nat → Nat) : Bool × List CartLog :=
  if openOk then load_cartridge_from_rom rom
  else (false, [CartLog.perrorOpen])

/-- A ROM whose header bytes are all zero: its checksum byte-sum is
`25 ≠ 0`, so the code's own byte-sum test fails. -/
def romZero : Nat → Nat := fun _ => 0

/-- A ROM whose header bytes are all one: each loop step leaves the sum
unchanged, so the byte-sum test passes (`sum = 0`). -/
def romOnes : Nat → Nat := fun _ => 1

/-! ## LCD register file (src/ppu/lcd.c, include/ppu/lcd.h)

`struct lcd` is declared in `ppu/lcd.h` as sixteen `u8` members, which
`lcd.c` also addresses as a byte array via `(u8 *)&g_lcd`.  The declaration
order fixes the byte offsets:

```
0 lcdc   1 stat   2 scy    3 scx    4 ly     5 lyc    6 dma    7 dmg.bgp
8 dmg.obp[0]      9 dmg.obp[1]     10 wy    11 wx
12 cgb_colors.bgpi  13 .bgpd  14 .obpi  15 .obpd
```
-/

/-- `struct lcd` from `ppu/lcd.h`, flattened (the `dmg` and `cgb_colors`
sub-structs contribute the fields `bgp`, `obp0`, `obp1` and `bgpi`, `bgpd`,
`obpi`, `obpd`). -/
structure Lcd where
  lcdc : Nat
  stat : Nat
  scy : Nat
  scx : Nat
  ly : Nat
  lyc : Nat
  dma : Nat
  bgp : Nat
  obp0 : Nat
  obp1 : Nat
  wy : Nat
  wx : Nat
  bgpi : Nat
  bgpd : Nat
  obpi : Nat
  obpd : Nat
  deriving DecidableEq

/-- The byte store `lcd_ptr[off] = value` on `(u8 *)&g_lcd`, by the offset
table above.  Offsets past the struct are C undefined behaviour; the
embedding leaves the state unchanged there (never reached by the claims). -/
def lcd_byte_set (l : Lcd) (off v : Nat) : Lcd :=
  match off with
  | 0 => { l with lcdc := v }
  | 1 => { l with stat := v }
  | 2 => { l with scy := v }
  | 3 => { l with scx := v }
  | 4 => { l with ly := v }
  | 5 => { l with lyc := v }
  | 6 => { l with dma := v }
  | 7 => { l with bgp := v }
  | 8 => { l with obp0 := v }
  | 9 => { l with obp1 := v }
  | 10 => { l with wy := v }
  | 11 => { l with wx := v }
  | 12 => { l with bgpi := v }
  | 13 => { l with bgpd := v }
  | 14 => { l with obpi := v }
  | 15 => { l with obpd := v }
  | _ => l

/-- The byte load `((u8 *)&g_lcd)[off]`, by the offset table above. -/
def lcd_byte_get (l : Lcd) (off : Nat) : Nat :=
  match off with
  | 0 => l.lcdc
  | 1 => l.stat
  | 2 => l.scy
  | 3 => l.scx
  | 4 => l.ly
  | 5 => l.lyc
  | 6 => l.dma
  | 7 => l.bgp
  | 8 => l.obp0
  | 9 => l.obp1
  | 10 => l.wy
  | 11 => l.wx
  | 12 => l.bgpi
  | 13 => l.bgpd
  | 14 => l.obpi
  | 15 => l.obpd
  | _ => 0

/-- Modelled from the spec: `BETWEEN` from `utils/macro.h` (not under
`src/`), an inclusive range test; `lcd.c` uses it for the windows it
comments as `0xFF68-6B` and for the pair LY, LYC. -/
def BETWEEN (x low high : Nat) : Bool := decide (low ≤ x ∧ x ≤ high)

/-- A `palette` (`typedef shade palette[4]`, a shade being a `u32`). -/
structure Palette where
  c0 : Nat
  c1 : Nat
  c2 : Nat
  c3 : Nat
  deriving DecidableEq

/-- `union palettes`, DMG variant: one background palette and two object
palettes, laid out consecutively (`bg`, `obj[0]`, `obj[1]`). -/
structure Palettes where
  bg : Palette
  obj0 : Palette
  obj1 : Palette
  deriving DecidableEq

/-- `default_palette` from `lcd.c`: white, light grey, dark grey, black. -/
def default_palette (index : Nat) : Nat :=
  match index with
  | 0 => 0xFFFFFFFF
  | 1 => 0xFFAAAAAA
  | 2 => 0xFF555555
  | _ => 0xFF000000

/-- `INVALID` terminates the `palette_name` enum of `ppu/lcd.h`
(`OBJS = 0`, `SPRITE_0`, `SPRITE_1`, `INVALID`). -/
def INVALID_PALETTE : Nat := 3

/-- Modelled from the spec: `BG_PALETTE`, referenced by `lcd.c` but not
defined under `src/`.  `write_lcd` passes `address - 0xFF47`, and the DMG has
the single background palette register at `0xFF47`, so its value is 0. -/
def BG_PALETTE : Nat := 0

/-- `lcd_get_palette` from `lcd.c`: asserts `index < INVALID`, then returns
the palette one `sizeof(palette)` past `g_palettes.dmg.bg` — the slot of
`obj[0]` — regardless of `index`.  The result is the slot number inside
`Palettes` (0 bg, 1 obj0, 2 obj1); `none` models the assertion firing. -/
def lcd_get_palette (index : Nat) : Option Nat :=
  if index < INVALID_PALETTE then some 1 else none

/-- The `SHADE(_data, _index)` macro inside `lcd_update_palette`:
`default_palette[((_data) >> (2 * (_index))) & 0b11]`. -/
def SHADE (data index : Nat) : Nat := default_palette ((data >>> (2 * index)) &&& 0b11)

/-- Store a palette into the slot returned by `lcd_get_palette`. -/
def palettes_set (p : Palettes) (slot : Nat) (pal : Palette) : Palettes :=
  match slot with
  | 0 => { p with bg := pal }
  | 1 => { p with obj0 := pal }
  | _ => { p with obj1 := pal }

/-- Read the palette in a slot (0 bg, 1 obj0, 2 obj1). -/
def palettes_get (p : Palettes) (slot : Nat) : Palette :=
  match slot with
  | 0 => p.bg
  | 1 => p.obj0
  | _ => p.obj1

/-- `lcd_update_palette` from `lcd.c`: writes `SHADE data 0..2` through the
pointer obtained from `lcd_get_palette`, and `SHADE data 3` only when the
name is `BG_PALETTE` (the lower 2 bits are ignored for OBJ palettes).  If
the assertion inside `lcd_get_palette` fires, no update happens. -/
def lcd_update_palette (p : Palettes) (name data : Nat) : Palettes :=
  match lcd_get_palette name with
  | none => p
  | some slot =>
      let old := palettes_get p slot
      let pal : Palette :=
        { c0 := SHADE data 0, c1 := SHADE data 1, c2 := SHADE data 2,
          c3 := if name = BG_PALETTE then SHADE data 3 else old.c3 }
      palettes_set p slot pal

/-- The LCD component's full mutable state: the register struct `g_lcd` and
the palette table `g_palettes`. -/
structure LcdState where
  lcd : Lcd
  palettes : Palettes
  deriving DecidableEq

/-- Diagnostics emitted by `write_lcd`: the read-only warning for `0xFF44`,
the `NOT_IMPLEMENTED("OAM DMA Transfer")` stub for `0xFF46`, and the invalid
write-address warning of the final `else`. -/
inductive LcdLog where
  | warnReadOnly (address : Nat)
  | oamDmaStub
  | warnInvalid (address : Nat)
  deriving DecidableEq

/-- `write_lcd` from `lcd.c`.  The `switch` gives `0xFF41`, `0xFF44` and
`0xFF46` early-returning cases; `0xFF47`-`0xFF49` update a palette and fall
through to the default, which stores the byte for addresses up to `0xFF4B`,
stores into `cgb_colors` (struct offset 12) for `0xFF68`-`0xFF6B`, and warns
otherwise; cases that do not return re-derive STAT's LYC flag when LY or LYC
was touched. -/
def write_lcd (s : LcdState) (address value : Nat) : LcdState × List LcdLog :=
  let value := value % 256
  if address = 0xFF41 then
    ({ s with lcd := { s.lcd with
        stat := ((s.lcd.stat &&& 0x7) ||| (value &&& 0xF8)) ||| 0x80 } }, [])
  else if address = 0xFF44 then
    (s, [LcdLog.warnReadOnly address])
  else if address = 0xFF46 then
    (s, [LcdLog.oamDmaStub])
  else
    let s1 :=
      if 0xFF47 ≤ address ∧ address ≤ 0xFF49 then
        { s with palettes := lcd_update_palette s.palettes (address - 0xFF47) value }
      else s
    let step :=
      if address ≤ 0xFF4B then
        ({ s1 with lcd := lcd_byte_set s1.lcd (address - 0xFF40) value }, ([] : List LcdLog))
      else if BETWEEN address 0xFF68 0xFF6B then
        ({ s1 with lcd := lcd_byte_set s1.lcd (12 + (address - 0xFF68)) value }, [])
      else
        (s1, [LcdLog.warnInvalid address])
    let s2 := step.1
    let s3 :=
      if BETWEEN address 0xFF44 0xFF45 then
        { s2 with lcd :=
            if s2.lcd.ly = s2.lcd.lyc then { s2.lcd with stat := s2.lcd.stat ||| (1 <<< 2) }
            else { s2.lcd with stat := s2.lcd.stat &&& 0xFB } }
      else s2
    (s3, step.2)

/-- `read_lcd` from `lcd.c`: `ASSERT_MSG(BETWEEN(address, 0xFF40, 0xFF4A))`
then the byte at `address - 0xFF40`; the assertion firing is `none`. -/
def read_lcd (l : Lcd) (address : Nat) : Option Nat :=
  if BETWEEN address 0xFF40 0xFF4A then some (lcd_byte_get l (address - 0xFF40))
  else none

/-- The zero-initialised static `g_lcd` and `g_palettes`. -/
def lcdState_zero : LcdState :=
  ⟨⟨0, 0, 0, 0, 0, 0, 0, 0, 0, 0, 0, 0, 0, 0, 0, 0⟩,
   ⟨⟨0, 0, 0, 0⟩, ⟨0, 0, 0, 0⟩, ⟨0, 0, 0, 0⟩⟩⟩

/-- `init_lcd` from `lcd.c`: sets the registers, the DMG palette registers,
copies `default_palette` into the three palettes, and sets STAT to the LYC
flag alone. -/
def init_lcd (s : LcdState) : LcdState :=
  let defaults : Palette := ⟨default_palette 0, default_palette 1,
    default_palette 2, default_palette 3⟩
  { lcd := { s.lcd with
      lcdc := 0x91, scx := 0, scy := 0, wx := 0, wy := 0, ly := 0, lyc := 0,
      bgp := 0xFC, obp0 := 0xFF, obp1 := 0xFF,
      stat := 0 ||| (1 <<< 2) },
    palettes := ⟨defaults, defaults, defaults⟩ }

/-- The LCD state after program startup, used by closed evaluations. -/
def lcdState0 : LcdState := init_lcd lcdState_zero

/-! ## CLI positional arguments (options.c)

`parse_opt` handles `ARGP_KEY_ARG` by rejecting when `state->arg_num >
GBEMU_NB_ARGS` and storing the value at `args[arg_num]` otherwise, and
`ARGP_KEY_END` by rejecting when `state->arg_num < GBEMU_NB_ARGS`.  argp
delivers the positional arguments in order with `arg_num` counting those
already consumed, and `argp_usage` prints usage and exits non-zero. -/

/-- Modelled from the spec: `GBEMU_NB_ARGS` (`options.h`, not under `src/`);
the CLI "accepts a single cartridge-file argument", so the expected
positional count is 1. -/
def GBEMU_NB_ARGS : Nat := 1

/-- The positional-argument protocol of `parse_opt`, driven over the list of
positional arguments with `argNum` counting those already stored.  `none`
models `argp_usage` (usage output, non-zero exit); `some stored` is the list
of `(index, value)` pairs written into `arguments->args`. -/
def parse_positional_loop (argNum : Nat) (stored : List (Nat × String)) :
    List String → Option (List (Nat × String))
  | [] => if argNum < GBEMU_NB_ARGS then none else some stored
  | value :: rest =>
      if argNum > GBEMU_NB_ARGS then none
      else parse_positional_loop (argNum + 1) (stored ++ [(argNum, value)]) rest

/-- Positional-argument parsing of a whole invocation. -/
def parse_positionals (args : List String) : Option (List (Nat × String)) :=
  parse_positional_loop 0 [] args

/-! ## Main loop (main.c)

`main` parses the options, calls `load_cartridge` (its boolean result is not
inspected), prints the cartridge info, resets the CPU and the timer, and then
iterates `while (cpu.is_running)`: a halted CPU ticks the timer, a running
one executes one instruction; each iteration then calls `handle_interrupts`
and, under `--blargg`, the two test-ROM reporting calls.

The components touched by the loop (`execute_instruction`, `timer_tick`,
`handle_interrupts`, `test_rom_update`/`test_rom_print`, all outside `src/`)
are abstract state transformers; the CPU run flags they may change are
explicit.  Iterations also emit the call events, so "one unit of work, one
interrupt check" is provable. -/

/-- Calls made inside one main-loop iteration. -/
inductive LoopEvent where
  | execInstr
  | timerTick
  | handleInterrupts
  | testRomUpdate
  | testRomPrint
  deriving DecidableEq

/-- CPU run state as the main loop sees it: the `is_running` and `halt`
flags plus the rest of the machine (registers, bus, ...) of type `α`. -/
structure CpuRun (α : Type) where
  is_running : Bool
  halt : Bool
  machine : α
  deriving DecidableEq

/-- The step functions the main loop dispatches to. -/
structure LoopFuns (α : Type) where
  exec : CpuRun α → CpuRun α
  tick : CpuRun α → CpuRun α
  intr : CpuRun α → CpuRun α
  blarggFn : CpuRun α → CpuRun α

/-- One iteration body of `main`'s loop: one unit of work selected on the
`halt` flag, then `handle_interrupts`, then the optional blargg reporting. -/
def loop_iteration {α : Type} (f : LoopFuns α) (blargg : Bool) (s : CpuRun α) :
    CpuRun α × List LoopEvent :=
  let work := if s.halt then (f.tick s, [LoopEvent.timerTick])
    else (f.exec s, [LoopEvent.execInstr])
  let s2 := f.intr work.1
  let s3 := if blargg then f.blarggFn s2 else s2
  let tail := if blargg then [LoopEvent.testRomUpdate, LoopEvent.testRomPrint] else []
  (s3, work.2 ++ [LoopEvent.handleInterrupts] ++ tail)

/-- `main`'s `while (cpu.is_running)` loop, fuel-bounded: the flag is tested
once at the top of each iteration, and a started body always runs to
completion.  Returns the final state and the per-iteration event lists. -/
def main_loop {α : Type} (f : LoopFuns α) (blargg : Bool) :
    Nat → CpuRun α → CpuRun α × List (List LoopEvent)
  | 0, s => (s, [])
  | fuel + 1, s =>
      if s.is_running then
        let iter := loop_iteration f blargg s
        let rest := main_loop f blargg fuel iter.1
        (rest.1, iter.2 :: rest.2)
      else (s, [])

/-- Modelled from the spec: `reset_cpu` (`CPU/cpu.c`, not under `src/`).
The run state is initialized at reset and clearing `is_running` is the only
stop mechanism of the subsequent loop, so reset leaves the CPU running and
not halted. -/
def reset_cpu {α : Type} (machine : α) : CpuRun α :=
  ⟨true, false, machine⟩

/-- Top-level events of `main` (main.c). -/
inductive MainEvent where
  | parsedOptions
  | loadedCartridge (ok : Bool)
  | printedCartInfo
  | didResetCpu
  | didResetTimer
  | loopIteration (events : List LoopEvent)
  deriving DecidableEq

/-- `main` from main.c, with the outcome of `load_cartridge` abstracted as
`loadOk`: the result is discarded (the source calls
`load_cartridge(options->args[0]);` without testing it) and execution
proceeds unconditionally to `cartridge_info`, the resets and the loop. -/
def main_program {α : Type} (f : LoopFuns α) (blargg loadOk : Bool)
    (machine : α) (fuel : Nat) : List MainEvent :=
  let s0 := reset_cpu machine
  [MainEvent.parsedOptions, MainEvent.loadedCartridge loadOk,
   MainEvent.printedCartInfo, MainEvent.didResetCpu, MainEvent.didResetTimer] ++
    (main_loop f blargg fuel s0).2.map MainEvent.loopIteration

/-- Number of units of work (instruction executions or timer ticks) in an
event list. -/
def work_count (events : List LoopEvent) : Nat :=
  events.countP fun e => decide (e = LoopEvent.execInstr ∨ e = LoopEvent.timerTick)

/-- Number of interrupt-controller checks in an event list. -/
def intr_count (events : List LoopEvent) : Nat :=
  events.count LoopEvent.handleInterrupts

/-- Trivial step functions over a unit machine, for closed evaluations. -/
def idFuns : LoopFuns Unit := ⟨id, id, id, id⟩

/-! ## Theorems -/

set_option maxRecDepth 4000 in
/-- C3: the claim asserts that the big-endian and little-endian branches of
the OPCODE_X/Y/Z/P/Q macros extract the same bit fields (x = bits 7-6,
y = bits 5-3, z = bits 2-0, p = bits 5-4, q = bit 3) for every opcode byte.
The big-endian branch does extract exactly those fields for every byte, but
the little-endian branch extracts different bits and disagrees at concrete
opcodes for every one of the five macros, contradicting the comment above
the macros (bit positions within a byte do not depend on host byte order). -/
theorem c3_opcode_field_branches_disagree :
    (∀ b < 256, OPCODE_X_BE b = b / 2 ^ 6 ∧ OPCODE_Y_BE b = b / 2 ^ 3 % 8 ∧
      OPCODE_Z_BE b = b % 8 ∧ OPCODE_P_BE b = b / 2 ^ 4 % 4 ∧
      OPCODE_Q_BE b = b / 2 ^ 3 % 2) ∧
    OPCODE_X_LE 0x40 ≠ OPCODE_X_BE 0x40 ∧
    OPCODE_Y_LE 0x08 ≠ OPCODE_Y_BE 0x08 ∧
    OPCODE_Z_LE 0x01 ≠ OPCODE_Z_BE 0x01 ∧
    OPCODE_P_LE 0x10 ≠ OPCODE_P_BE 0x10 ∧
    OPCODE_Q_LE 0x08 ≠ OPCODE_Q_BE 0x08 := by
  constructor
  · decide
  · decide

/-- C3 witness: the big-endian extraction evaluated at opcode `0x40`. -/
theorem c3_witness : OPCODE_X_BE 0x40 = 0x40 / 2 ^ 6 :=
  (c3_opcode_field_branches_disagree.1 0x40 (by decide)).1

/-- C4 counterexample: at the unmapped I/O address `0xFF10` (below the timer
window and distinct from the interrupt-flag register), `read_io` returns 0,
not the claimed benign default `0xFF`. -/
theorem c4_counterexample_read_default :
    (io_read ioState0 0xFF10).1 = 0 ∧ (io_read ioState0 0xFF10).1 ≠ 0xFF := by
  decide

/-- C4 (amended): for every I/O address outside the timer window
`TIMER_DIV..TIMER_TAC` and distinct from the interrupt-flag register,
`read_io` logs a diagnostic and returns the benign default 0 (not `0xFF`),
and `write_io` logs a diagnostic and leaves the emulated state unchanged;
neither aborts execution. -/
theorem c4_unmapped_io_logs_and_defaults (s : IoState) (address data : Nat)
    (h1 : ¬(TIMER_DIV ≤ address ∧ address ≤ TIMER_TAC))
    (h2 : address ≠ IF_ADDRESS) :
    io_read s address = (0, [IoLog.ioErr address]) ∧
    io_write s address data = (s, [IoLog.ioErr address]) := by
  constructor <;> simp [io_read, io_write, IN_RANGE, h1, h2]

/-- C4 witness: the amended statement evaluated at address `0xFF10`. -/
theorem c4_witness :
    io_read ioState0 0xFF10 = (0, [IoLog.ioErr 0xFF10]) ∧
    io_write ioState0 0xFF10 0 = (ioState0, [IoLog.ioErr 0xFF10]) :=
  c4_unmapped_io_logs_and_defaults ioState0 0xFF10 0 (by decide) (by decide)

/-- C5: the checksum gate of `load_cartridge` is inverted.  On a ROM whose
header bytes are all 1 the byte-sum check passes (`verify_header_checksum`
returns true), yet `load_cartridge` reports "Invalid checksum." and returns
false; on a ROM whose header bytes are all 0 the byte-sum check fails
(final sum 25), yet `load_cartridge` proceeds past the checksum step and
returns true. -/
theorem c5_checksum_gate_inverted :
    verify_header_checksum romOnes = true ∧
    load_cartridge_from_rom romOnes = (false, [CartLog.invalidChecksum]) ∧
    verify_header_checksum romZero = false ∧
    load_cartridge_from_rom romZero = (true, []) := by
  refine ⟨by decide, ?_, by decide, ?_⟩ <;> decide

/-- C2: the claim asserts that when `load_cartridge` fails the main loop is
never entered.  But `main` discards the result of `load_cartridge`, so even
in an execution where loading fails (here: the file cannot be opened, so
`load_cartridge` returns false), the trace of `main` still contains a
fetch-execute/interrupt loop iteration. -/
theorem c2_loop_entered_after_failed_load :
    (load_cartridge_model false romZero).1 = false ∧
    MainEvent.loopIteration [LoopEvent.execInstr, LoopEvent.handleInterrupts] ∈
      main_program idFuns false false () 1 := by
  decide

/-- C6: a write of any byte to the read-only LY register at `0xFF44` logs a
warning and leaves the entire LCD state — registers and palettes — exactly
unchanged; `write_lcd` returns normally. -/
theorem c6_write_ly_is_noop (s : LcdState) (v : Nat) :
    write_lcd s 0xFF44 v = (s, [LcdLog.warnReadOnly 0xFF44]) := rfl

/-- C8: the claim asserts that any invocation with more than one positional
argument is rejected with usage output.  Zero positional arguments are
rejected and a single one is accepted, as claimed; but because `parse_opt`
rejects only when `arg_num > GBEMU_NB_ARGS`, an invocation with exactly two
positional arguments is accepted (the second is stored at index 1), and only
three or more trigger the usage exit. -/
theorem c8_two_positionals_accepted :
    parse_positionals [] = none ∧
    parse_positionals ["rom.gb"] = some [(0, "rom.gb")] ∧
    parse_positionals ["rom.gb", "extra.gb"] =
      some [(0, "rom.gb"), (1, "extra.gb")] ∧
    parse_positionals ["rom.gb", "extra.gb", "third.gb"] = none :=
  ⟨rfl, rfl, rfl, rfl⟩

set_option maxRecDepth 10000 in
/-- Bit behaviour of the STAT write on the byte ranges involved: for a prior
low part `t < 8` and a written byte `u < 256`, the combined value keeps the
low three bits, takes bits 3-6 from `u`, and has bit 7 set. -/
theorem stat_combine_bits : ∀ t < 8, ∀ u < 256,
    ((t ||| (u &&& 0xF8)) ||| 0x80) % 8 = t % 8 ∧
    ((t ||| (u &&& 0xF8)) ||| 0x80) / 8 % 16 = u / 8 % 16 ∧
    ((t ||| (u &&& 0xF8)) ||| 0x80) / 128 % 2 = 1 := by decide

/-- C9: a write of `v` to STAT (`0xFF41`) preserves the read-only bits 0-2
of STAT (`stat % 8`), copies bits 3-6 from `v` (`stat / 8 % 16`), forces
bit 7 to 1 (`stat / 128 % 2`), emits no diagnostic, and leaves every other
LCD register and the palettes unchanged. -/
theorem c9_stat_write_masks (s : LcdState) (v : Nat) :
    (write_lcd s 0xFF41 v).2 = [] ∧
    (write_lcd s 0xFF41 v).1.palettes = s.palettes ∧
    (write_lcd s 0xFF41 v).1.lcd =
      { s.lcd with stat := (write_lcd s 0xFF41 v).1.lcd.stat } ∧
    (write_lcd s 0xFF41 v).1.lcd.stat % 8 = s.lcd.stat % 8 ∧
    (write_lcd s 0xFF41 v).1.lcd.stat / 8 % 16 = v / 8 % 16 ∧
    (write_lcd s 0xFF41 v).1.lcd.stat / 128 % 2 = 1 := by
  have hstat : (write_lcd s 0xFF41 v).1.lcd.stat =
      ((s.lcd.stat &&& 0x7) ||| (v % 256 &&& 0xF8)) ||| 0x80 := rfl
  have hand : s.lcd.stat &&& 7 = s.lcd.stat % 8 := by
    have h := Nat.and_pow_two_sub_one_eq_mod s.lcd.stat 3
    norm_num at h
    exact h
  have key := stat_combine_bits (s.lcd.stat % 8) (by omega) (v % 256)
    (by omega)
  refine ⟨rfl, rfl, rfl, ?_, ?_, ?_⟩
  · rw [hstat, hand]
    omega
  · rw [hstat, hand]
    have h2 := key.2.1
    omega
  · rw [hstat, hand]
    exact key.2.2

/-- C10: on each plain read/write LCD register (SCY `0xFF42`, SCX `0xFF43`,
LYC `0xFF45`, BGP `0xFF47`, OBP0 `0xFF48`, OBP1 `0xFF49`, WY `0xFF4A`),
writing a byte and reading the same address back returns exactly the byte
written. -/
theorem c10_write_read_round_trip (s : LcdState) (a v : Nat)
    (ha : a = 0xFF42 ∨ a = 0xFF43 ∨ a = 0xFF45 ∨ a = 0xFF47 ∨ a = 0xFF48 ∨
      a = 0xFF49 ∨ a = 0xFF4A)
    (hv : v < 256) :
    read_lcd (write_lcd s a v).1.lcd a = some v := by
  have hmod : v % 256 = v := Nat.mod_eq_of_lt hv
  rcases ha with rfl | rfl | rfl | rfl | rfl | rfl | rfl <;>
    simp [write_lcd, read_lcd, BETWEEN, lcd_byte_set, lcd_byte_get, hmod]
  split <;> simp

/-- C10 witness: the round trip evaluated at LYC with the byte `0xAB`. -/
theorem c10_witness :
    read_lcd (write_lcd lcdState0 0xFF45 0xAB).1.lcd 0xFF45 = some 0xAB :=
  c10_write_read_round_trip lcdState0 0xFF45 0xAB (by decide) (by decide)

/-- C7 counterexample: `read_lcd` is not defined over both claimed ranges:
its range assertion fires (`none`) at `0xFF4B`, the last address of the
claimed monochrome block, and at `0xFF68`, the first address of the claimed
color-palette block. -/
theorem c7_counterexample_read_asserts :
    read_lcd lcdState0.lcd 0xFF4B = none ∧
    read_lcd lcdState0.lcd 0xFF68 = none := by decide

/-- C7 (amended): `write_lcd` handles every address of both register ranges
`0xFF40`-`0xFF4B` and `0xFF68`-`0xFF6B` without ever reaching the
invalid-address diagnostic, but `read_lcd` is defined (assertion passes)
exactly on `0xFF40`-`0xFF4A`: reads at `0xFF4B` and in the color-palette
block fail the range assertion. -/
theorem c7_lcd_range_coverage (s : LcdState) (a v : Nat)
    (h : (0xFF40 ≤ a ∧ a ≤ 0xFF4B) ∨ (0xFF68 ≤ a ∧ a ≤ 0xFF6B)) :
    (∀ x, LcdLog.warnInvalid x ∉ (write_lcd s a v).2) ∧
    ((read_lcd s.lcd a).isSome ↔ (0xFF40 ≤ a ∧ a ≤ 0xFF4A)) := by
  rcases h with ⟨h1, h2⟩ | ⟨h1, h2⟩ <;> interval_cases a <;>
    simp [write_lcd, read_lcd, BETWEEN, lcd_byte_set]

/-- C7 witness: the amended statement evaluated at SCY (`0xFF42`). -/
theorem c7_witness :
    (∀ x, LcdLog.warnInvalid x ∉ (write_lcd lcdState0 0xFF42 7).2) ∧
    ((read_lcd lcdState0.lcd 0xFF42).isSome ↔
      (0xFF40 ≤ 0xFF42 ∧ 0xFF42 ≤ 0xFF4A)) :=
  c7_lcd_range_coverage lcdState0 0xFF42 7 (Or.inl (by decide))

/-- C1: shape of the main loop, for every choice of component step
functions.  (i) When the running flag is clear at the top of an iteration
the loop exits at once, with no further events (the flag is the only exit
test).  (ii) When the flag is set, the whole body runs: the iteration's
events are exactly one unit of work — a timer tick when halted, an
instruction execution otherwise — followed by exactly one
interrupt-controller check (and the optional blargg reporting), after which
the loop continues from the stepped state; the flag is not re-examined
mid-body.  (iii) Every iteration in any trace of the loop contains exactly
one unit of work and exactly one interrupt check, in that order.  Fuel only
bounds the unrolling of the potentially unbounded loop. -/
theorem c1_main_loop_one_work_one_check {α : Type} (f : LoopFuns α)
    (blargg : Bool) (fuel : Nat) (s : CpuRun α) :
    (s.is_running = false → main_loop f blargg (fuel + 1) s = (s, [])) ∧
    (s.is_running = true →
      (main_loop f blargg (fuel + 1) s).2 =
        ((if s.halt then [LoopEvent.timerTick] else [LoopEvent.execInstr]) ++
          [LoopEvent.handleInterrupts] ++
          (if blargg then [LoopEvent.testRomUpdate, LoopEvent.testRomPrint]
           else [])) ::
        (main_loop f blargg fuel (loop_iteration f blargg s).1).2) ∧
    (∀ events ∈ (main_loop f blargg fuel s).2,
      work_count events = 1 ∧ intr_count events = 1 ∧
      ∃ w, events.take 2 = [w, LoopEvent.handleInterrupts] ∧
        (w = LoopEvent.execInstr ∨ w = LoopEvent.timerTick)) := by
  refine ⟨?_, ?_, ?_⟩
  · intro h
    simp [main_loop, h]
  · intro h
    cases hh : s.halt <;> cases hb : blargg <;>
      simp [main_loop, h, loop_iteration, hh, hb]
  · induction fuel generalizing s with
    | zero =>
        intro events h
        simp [main_loop] at h
    | succ n ih =>
        intro events h
        by_cases hr : s.is_running
        · simp only [main_loop, hr, if_true, List.mem_cons] at h
          rcases h with h | h
          · subst h
            cases hh : s.halt <;> cases hb : blargg <;>
              simp [loop_iteration, hh, hb, work_count, intr_count]
          · exact ih _ _ h
        · simp [main_loop, hr] at h

/-- C1 witness: the loop evaluated over a unit machine — it exits
immediately on a cleared flag, and the single iteration produced by a
running, non-halted CPU holds one work unit and one interrupt check. -/
theorem c1_witness :
    main_loop idFuns false 1 (⟨false, false, ()⟩ : CpuRun Unit) =
      (⟨false, false, ()⟩, []) ∧
    work_count [LoopEvent.execInstr, LoopEvent.handleInterrupts] = 1 ∧
    intr_count [LoopEvent.execInstr, LoopEvent.handleInterrupts] = 1 := by
  have h0 := c1_main_loop_one_work_one_check idFuns false 0
    (⟨false, false, ()⟩ : CpuRun Unit)
  have h1 := c1_main_loop_one_work_one_check idFuns false 1
    (⟨true, false, ()⟩ : CpuRun Unit)
  have h := h1.2.2 [LoopEvent.execInstr, LoopEvent.handleInterrupts]
    (by decide)
  exact ⟨h0.1 rfl, h.1, h.2.1⟩

end GbEmu
